import Mathlib

/-!
Shallow embedding of `xonsh/base_shell.py`: the incremental
compilation/execution engine of the xonsh base shell.  Pure
functions model the methods of `BaseShell`, `Tee`, `_TeeStd`;
external collaborators (the execer, the code cache helpers, the
lexical partial-string scanner, the clock, the event bus) are
parameters of the model.
-/

namespace XonshBase

/-- Opaque handle for a compiled code object produced by the execer. -/
abbrev Code := Nat

/-- Result of `self.execer.compile(src, mode='single', ...)`: success with a
code object, a `SyntaxError`, or any other exception. -/
inductive ExecerResult
  | ok (code : Code)
  | syntaxError
  | otherError
  deriving DecidableEq

/-- The mutable fields of `BaseShell` that the incremental compiler uses:
`self.buffer`, `self.need_more_lines`, `self.mlprompt`. -/
structure ShellState where
  buffer : List String
  need_more_lines : Bool
  mlprompt : Option String
  deriving DecidableEq

/-- External collaborators of `BaseShell.push`/`BaseShell.compile`. -/
structure CompileEnv where
  /-- `should_use_cache(self.execer, 'single')`. -/
  should_use_cache : Bool
  /-- `code_cache_name(src)`. -/
  code_cache_name : String → String
  /-- `get_cache_filename(codefname, code=True)`. -/
  get_cache_filename : String → String
  /-- Behaviour of `self.execer.compile(src, mode='single', ...)`. -/
  execerCompile : String → ExecerResult
  /-- `check_for_partial_string(src)`: the first two components of the
  returned tuple (start index, end index of the last string literal). -/
  check_for_partial_string : String → Option Nat × Option Nat
  /-- `transform_command(src)`. -/
  transform_command : String → String

/-- Python's `str.endswith(suffix)`, computed on the character lists of
the two strings. -/
def strEndsWith (s suffix : String) : Bool :=
  suffix.data.isSuffixOf s.data

/-- Modelled from the spec: `code_cache_check(cachefname)` from
`xonsh.codecache` (not under `src/`): loads the entry if present and
validates it, returning `(usecache, code)`; absence degrades to a miss. -/
def code_cache_check (cache : List (String × Code)) (cachefname : String) :
    Bool × Option Code :=
  match cache.lookup cachefname with
  | some code => (true, some code)
  | none => (false, none)

/-- Modelled from the spec: `update_cache(code, cachefname)` from
`xonsh.codecache` (not under `src/`): persists the unit keyed by the
cache filename. -/
def update_cache (code : Code) (cachefname : String)
    (cache : List (String × Code)) : List (String × Code) :=
  (cachefname, code) :: cache

/-- Embeds `BaseShell.reset_buffer`. -/
def reset_buffer (st : ShellState) : ShellState :=
  { st with buffer := [], need_more_lines := false, mlprompt := none }

/-- Result of one call to `BaseShell.compile`: the returned pair
`(src, code)`, the updated shell fields, the updated cache store, and
trace flags recording whether `print_exception()` ran and whether the
execer's compile was invoked. -/
structure CompileOut where
  src : String
  code : Option Code
  shell : ShellState
  cache : List (String × Code)
  printedException : Bool
  compilerInvoked : Bool
  deriving DecidableEq

/-- The `try`/`except` body of `BaseShell.compile`: invoke the execer;
on success update the cache (when enabled) and reset the buffer; on
`SyntaxError` either permanently reject (blank-terminated source not
inside a partial string literal) or request more lines; on any other
exception reset the buffer and surface the error. -/
def compileBody (env : CompileEnv) (cache : List (String × Code))
    (st : ShellState) (src : String) (useCache : Bool) (cachefname : String) :
    CompileOut :=
  match env.execerCompile src with
  | ExecerResult.ok code =>
    let cache := if useCache then update_cache code cachefname cache else cache
    { src := src, code := some code, shell := reset_buffer st, cache := cache,
      printedException := false, compilerInvoked := true }
  | ExecerResult.syntaxError =>
    let partial_string_info := env.check_for_partial_string src
    let in_partial_string :=
      partial_string_info.1.isSome && partial_string_info.2.isNone
    if (src = "\n" || strEndsWith src "\n\n") && !in_partial_string then
      { src := src, code := none, shell := reset_buffer st, cache := cache,
        printedException := true, compilerInvoked := true }
    else
      { src := src, code := none,
        shell := { st with need_more_lines := true }, cache := cache,
        printedException := false, compilerInvoked := true }
  | ExecerResult.otherError =>
    { src := src, code := none, shell := reset_buffer st, cache := cache,
      printedException := true, compilerInvoked := true }

/-- Embeds `BaseShell.compile`: cache-aware compilation of accumulated source. -/
def compile (env : CompileEnv) (cache : List (String × Code))
    (st : ShellState) (src : String) : CompileOut :=
  let useCache := env.should_use_cache
  let codefname := env.code_cache_name src
  let cachefname := env.get_cache_filename codefname
  if useCache then
    let hit := code_cache_check cache cachefname
    if hit.1 then
      { src := src, code := hit.2, shell := reset_buffer st, cache := cache,
        printedException := false, compilerInvoked := false }
    else
      compileBody env cache st src useCache cachefname
  else
    compileBody env cache st src useCache cachefname

/-- Result of one call to `BaseShell.push`: the returned pair
`(src, code)` (both components may be `None`), plus updated state and
trace flags. -/
structure PushOut where
  src : Option String
  code : Option Code
  shell : ShellState
  cache : List (String × Code)
  printedException : Bool
  compilerInvoked : Bool
  deriving DecidableEq

/-- Embeds `BaseShell.push`: append the line to the buffer; if
`need_more_lines` is already set, return `(None, None)`; otherwise join
the buffer, transform it and compile it. -/
def push (env : CompileEnv) (cache : List (String × Code))
    (st : ShellState) (line : String) : PushOut :=
  let st := { st with buffer := st.buffer ++ [line] }
  if st.need_more_lines then
    { src := none, code := none, shell := st, cache := cache,
      printedException := false, compilerInvoked := false }
  else
    let src := String.join st.buffer
    let src := env.transform_command src
    let r := compile env cache st src
    { src := some r.src, code := r.code, shell := r.shell, cache := r.cache,
      printedException := r.printedException, compilerInvoked := r.compilerInvoked }

/-- Which of the two tee'd standard streams a write targets. -/
inductive StreamId
  | stdout
  | stderr
  deriving DecidableEq

/-- The decoration `_TeeStd.write` applies to the copy sent to the real
stream: `std_s = s; if prestd: std_s = prestd + std_s;
if poststd: std_s += poststd`. -/
def decorateStd (prestd poststd s : String) : String :=
  let std_s := s
  let std_s := if prestd ≠ "" then prestd ++ std_s else std_s
  if poststd ≠ "" then std_s ++ poststd else std_s

/-- Content model of one open `Tee`: the shared in-memory text buffer
plus the text received by the real stdout and stderr streams since the
tee was opened.  The stdout adapter is built with empty decorations;
the stderr adapter carries the configured decorations. -/
structure TeeModel where
  mem : String
  stdoutReal : String
  stderrReal : String
  prestderr : String
  poststderr : String
  deriving DecidableEq

/-- A fresh `Tee` as built by `Tee.__init__`: empty shared buffer, and
the stderr decorations taken from the environment. -/
def TeeModel.init (prestderr poststderr : String) : TeeModel :=
  { mem := "", stdoutReal := "", stderrReal := "",
    prestderr := prestderr, poststderr := poststderr }

/-- Embeds `_TeeStd.write` on the adapter selected by `id`: the real stream
receives the decorated payload, the shared buffer the undecorated one. -/
def TeeModel.write (t : TeeModel) (id : StreamId) (s : String) : TeeModel :=
  match id with
  | StreamId.stdout =>
    { t with stdoutReal := t.stdoutReal ++ decorateStd "" "" s,
             mem := t.mem ++ s }
  | StreamId.stderr =>
    { t with stderrReal := t.stderrReal ++ decorateStd t.prestderr t.poststderr s,
             mem := t.mem ++ s }

/-- A chronological sequence of writes through the two adapters. -/
def TeeModel.writeAll (t : TeeModel) (ws : List (StreamId × String)) : TeeModel :=
  ws.foldl (fun t w => t.write w.1 w.2) t

/-- Embeds `Tee.getvalue`: the current contents of the shared buffer. -/
def TeeModel.getvalue (t : TeeModel) : String := t.mem

/-- Identity of an object installed as `sys.stdout` / `sys.stderr`:
either one of the pre-existing stream objects or one of the two
`_TeeStd` adapters of the open tee. -/
inductive SysObj
  | orig (n : Nat)
  | teeStdout
  | teeStderr
  deriving DecidableEq

/-- The process-wide `sys.stdout` / `sys.stderr` identities. -/
structure SysStreams where
  stdout : SysObj
  stderr : SysObj
  deriving DecidableEq

/-- The identity-restoring half of one `_TeeStd`: `self.std`, the
stream object captured at construction time (`None` once restored). -/
structure TeeStdSys where
  std : Option SysObj
  deriving DecidableEq

/-- Embeds `_TeeStd._replace_std`: if `self.std` is `None` do nothing,
otherwise put the captured object back and forget it.  Returns the
updated adapter and the new value of the `sys` attribute. -/
def TeeStdSys.replaceStd (t : TeeStdSys) (cur : SysObj) : TeeStdSys × SysObj :=
  match t.std with
  | none => (t, cur)
  | some std => ({ std := none }, std)

/-- Identity model of an open `Tee`: the two `_TeeStd` adapters, the
shared buffer contents, and whether `self.memory` has been closed. -/
structure TeeSys where
  outTee : TeeStdSys
  errTee : TeeStdSys
  mem : String
  memClosed : Bool
  deriving DecidableEq

/-- Embeds `Tee.__init__` as it affects the stream identities: the stdout
adapter captures `sys.stdout` and installs itself, then the stderr
adapter does the same for `sys.stderr`. -/
def TeeSys.open (sys : SysStreams) : TeeSys × SysStreams :=
  let outTee : TeeStdSys := { std := some sys.stdout }
  let sys := { sys with stdout := SysObj.teeStdout }
  let errTee : TeeStdSys := { std := some sys.stderr }
  let sys := { sys with stderr := SysObj.teeStderr }
  ({ outTee := outTee, errTee := errTee, mem := "", memClosed := false }, sys)

/-- Embeds `Tee.close`: close the stdout tee, close the stderr tee (each
restores its captured stream object via `_replace_std`), then close the
in-memory buffer. -/
def TeeSys.close (t : TeeSys) (sys : SysStreams) : TeeSys × SysStreams :=
  let ro := t.outTee.replaceStd sys.stdout
  let sys := { sys with stdout := ro.2 }
  let re := t.errTee.replaceStd sys.stderr
  let sys := { sys with stderr := re.2 }
  ({ t with outTee := ro.1, errTee := re.1, memClosed := true }, sys)

/-- A write call on whatever object is currently installed as
`sys.stdout`: if that is the tee's stdout adapter the payload also
lands in the shared buffer, otherwise it reaches the real stream only.
Returns the updated tee and the updated real-stream contents. -/
def TeeSys.writeViaStdout (t : TeeSys) (sys : SysStreams) (realOut s : String) :
    TeeSys × String :=
  match sys.stdout with
  | SysObj.teeStdout => ({ t with mem := t.mem ++ s }, realOut ++ s)
  | _ => (t, realOut ++ s)

/-- One history entry built by `_append_history`: the `info` dict with
keys `inp`, `ts` (a pair), `rtn` and the optional `out`. -/
structure HistRecord where
  inp : String
  ts0 : Nat
  ts1 : Nat
  rtn : Option Int
  out : Option String
  deriving DecidableEq

/-- The mutable history object `builtins.__xonsh_history__`:
`last_cmd_rtn`, `last_cmd_out` and the appended records. -/
structure History where
  last_cmd_rtn : Option Int
  last_cmd_out : Option String
  records : List HistRecord
  deriving DecidableEq

/-- Fire-and-forget notifications sent to the event bus. -/
inductive Event
  | precommand (src : String)
  | postcommand (inp : String) (rtn : Option Int) (out : Option String)
      (ts : Nat × Nat)
  | chdir (old : Option String) (new : String)
  deriving DecidableEq

/-- The state one `BaseShell.default` cycle reads and writes: the shell
fields, the code-cache store, the history object (possibly absent), the
tracked `PWD`/`OLDPWD` environment entries, `builtins.__xonsh_exit__`,
and the index of the next clock reading. -/
structure SessionState where
  shell : ShellState
  cache : List (String × Code)
  hist : Option History
  pwd : Option String
  oldpwd : Option String
  exitFlag : Bool
  tick : Nat
  deriving DecidableEq

/-- Outcome of `run_compiled_code` on the compiled unit: normal return,
a `XonshError` with a user-facing message, or any other exception. -/
inductive Outcome
  | success
  | xonshError (msg : String)
  | fault
  deriving DecidableEq

/-- Observable behaviour of executing one compiled unit: the writes it
performs through the tee'd streams, the values (if any) it assigns to
`hist.last_cmd_rtn` / `hist.last_cmd_out`, whether it sets
`builtins.__xonsh_exit__`, and how it terminates. -/
structure ExecSpec where
  writes : List (StreamId × String)
  rtnSet : Option Int
  outSet : Option String
  setExit : Bool
  outcome : Outcome

/-- External collaborators of `BaseShell.default`. -/
structure SessionEnv where
  cenv : CompileEnv
  /-- The readings of `time.time()`, indexed by call order. -/
  times : Nat → Nat
  /-- `os.getcwd()`. -/
  getcwd : String
  /-- `format_std_prepost(env.get('XONSH_STDERR_PREFIX'))`. -/
  prestderr : String
  /-- `format_std_prepost(env.get('XONSH_STDERR_POSTFIX'))`. -/
  poststderr : String
  /-- The text `print_exception()` writes to `sys.stderr`. -/
  excText : String
  /-- Behaviour of `run_compiled_code(code, ...)` per code object. -/
  exec : Code → ExecSpec

/-- Embeds `if hist is not None and hist.last_cmd_rtn is None:
hist.last_cmd_rtn = r` — the return-code defaulting in
`BaseShell.default`. -/
def setRtnIfNone (hist : Option History) (r : Int) : Option History :=
  hist.map fun h =>
    { h with last_cmd_rtn :=
        match h.last_cmd_rtn with
        | none => some r
        | some v => some v }

/-- The assignments `run_compiled_code` may perform on
`hist.last_cmd_rtn` / `hist.last_cmd_out` as side effects of the
executed unit. -/
def applyExecSets (hist : Option History) (spec : ExecSpec) : Option History :=
  hist.map fun h =>
    { h with
      last_cmd_rtn :=
        match spec.rtnSet with
        | some r => some r
        | none => h.last_cmd_rtn
      last_cmd_out :=
        match spec.outSet with
        | some o => some o
        | none => h.last_cmd_out }

/-- Embeds `BaseShell._append_history`: capture `hist.last_cmd_rtn`, merge the
externally populated `hist.last_cmd_out` with this cycle's tee capture
(an empty capture counts as absent via `tee_out or None`), fire the
postcommand event, append the record and reset the two
`last_cmd_*` fields. -/
def append_history (st : SessionState) (inp : String) (ts0 ts1 : Nat)
    (tee_out : Option String) : SessionState × Event :=
  let rtn : Option Int :=
    match st.hist with
    | some h => h.last_cmd_rtn
    | none => none
  let tee_out : Option String :=
    match tee_out with
    | some s => if s = "" then none else some s
    | none => none
  let last_out : Option String :=
    match st.hist with
    | some h => h.last_cmd_out
    | none => none
  let out : Option String :=
    match last_out, tee_out with
    | none, none => none
    | none, some t => some t
    | some l, none => some l
    | some l, some t => some (t ++ "\n" ++ l)
  let ev := Event.postcommand inp rtn out (ts0, ts1)
  let st :=
    match st.hist with
    | some h =>
      let h2 : History :=
        { last_cmd_rtn := none, last_cmd_out := none,
          records := h.records ++ [⟨inp, ts0, ts1, rtn, out⟩] }
      { st with hist := some h2 }
    | none => st
  (st, ev)

/-- Embeds `BaseShell._fix_cwd`: if the actual working directory differs from
the tracked `PWD`, track it, move the old value to `OLDPWD` (when it
was set) and fire a chdir event. -/
def fix_cwd (env : SessionEnv) (st : SessionState) :
    SessionState × List Event :=
  let cwd := env.getcwd
  if st.pwd ≠ some cwd then
    let old := st.pwd
    let st := { st with pwd := some cwd }
    let st :=
      match old with
      | some o => { st with oldpwd := some o }
      | none => st
    (st, [Event.chdir old cwd])
  else
    (st, [])

/-- Result of one `BaseShell.default` call: the Python return value
(`True` or `None`), the final state, the events fired in order, the
final tee contents (absent when no unit completed), and how many times
`tee.close()` ran. -/
structure DefaultOut where
  ret : Option Bool
  state : SessionState
  events : List Event
  tee : Option TeeModel
  teeCloses : Nat

/-- Embeds `BaseShell.default`: normalize the line, push it; when a unit is
produced, fire precommand, open a tee, execute the unit, default the
return code per outcome, then — in the `finally` block — fill the end
timestamp, append history, close the tee and run the cwd-drift check. -/
def default (env : SessionEnv) (st : SessionState) (line : String) :
    DefaultOut :=
  let line := if strEndsWith line "\n" then line else line ++ "\n"
  let p := push env.cenv st.cache st.shell line
  let st := { st with shell := p.shell, cache := p.cache }
  match p.code with
  | none => { ret := none, state := st, events := [], tee := none, teeCloses := 0 }
  | some code =>
    let src := p.src.getD ""
    let ev1 := Event.precommand src
    let tee := TeeModel.init env.prestderr env.poststderr
    let ts0 := env.times st.tick
    let st := { st with tick := st.tick + 1 }
    let spec := env.exec code
    let tee := tee.writeAll spec.writes
    let st := { st with
      hist := applyExecSets st.hist spec
      exitFlag := st.exitFlag || spec.setExit }
    let branch : Option Nat × SessionState × TeeModel :=
      match spec.outcome with
      | Outcome.success =>
        let ts1 := env.times st.tick
        let st := { st with tick := st.tick + 1 }
        let st := { st with hist := setRtnIfNone st.hist 0 }
        (some ts1, st, tee)
      | Outcome.xonshError msg =>
        let tee := tee.write StreamId.stderr (msg ++ "\n")
        let st := { st with hist := setRtnIfNone st.hist 1 }
        (none, st, tee)
      | Outcome.fault =>
        let tee := tee.write StreamId.stderr env.excText
        let st := { st with hist := setRtnIfNone st.hist 1 }
        (none, st, tee)
    let ts1opt := branch.1
    let st := branch.2.1
    let tee := branch.2.2
    let fin : Nat × SessionState :=
      match ts1opt with
      | some v =>
        if v = 0 then (env.times st.tick, { st with tick := st.tick + 1 })
        else (v, st)
      | none => (env.times st.tick, { st with tick := st.tick + 1 })
    let ts1 := fin.1
    let st := fin.2
    let ap := append_history st src ts0 ts1 (some tee.getvalue)
    let st := ap.1
    let fx := fix_cwd env st
    let st := fx.1
    let ret : Option Bool := if st.exitFlag then some true else none
    { ret := ret, state := st, events := ev1 :: ap.2 :: fx.2,
      tee := some tee, teeCloses := 1 }

/-- Concatenation of a list of strings, in order. -/
def strConcat : List String → String
  | [] => ""
  | s :: rest => s ++ strConcat rest

/-! Concrete instances used in the closed statements below. -/

/-- A compile environment whose execer always reports a syntax error,
with caching disabled and no partial string literal detected. -/
def envSyn : CompileEnv :=
  { should_use_cache := false
    code_cache_name := fun s => s
    get_cache_filename := fun s => s
    execerCompile := fun _ => ExecerResult.syntaxError
    check_for_partial_string := fun _ => (none, none)
    transform_command := fun s => s }

/-- A compile environment whose execer always succeeds (returning code
object `7`), with caching enabled. -/
def envOkCache : CompileEnv :=
  { should_use_cache := true
    code_cache_name := fun s => s
    get_cache_filename := fun s => s
    execerCompile := fun _ => ExecerResult.ok 7
    check_for_partial_string := fun _ => (none, none)
    transform_command := fun s => s }

/-- A compile environment whose execer always succeeds (returning code
object `5`), with caching disabled. -/
def envOk : CompileEnv :=
  { should_use_cache := false
    code_cache_name := fun s => s
    get_cache_filename := fun s => s
    execerCompile := fun _ => ExecerResult.ok 5
    check_for_partial_string := fun _ => (none, none)
    transform_command := fun s => s }

/-- An empty shell state. -/
def stEmpty : ShellState := { buffer := [], need_more_lines := false, mlprompt := none }

/-- A shell state in the middle of a multi-line block: one buffered
line and `need_more_lines` set. -/
def stNeed : ShellState := { buffer := ["if q:\n"], need_more_lines := true, mlprompt := none }

/-- A session environment whose unit executions raise an unrecognized
fault without setting a return code. -/
def sessFault : SessionEnv :=
  { cenv := envOk
    times := fun i => i + 10
    getcwd := "/d"
    prestderr := "<"
    poststderr := ">"
    excText := "TRACE\n"
    exec := fun _ =>
      { writes := [(StreamId.stdout, "A")], rtnSet := none, outSet := none,
        setExit := false, outcome := Outcome.fault } }

/-- A session environment whose unit executions succeed without
setting a return code. -/
def sessOk : SessionEnv :=
  { cenv := envOk
    times := fun i => i + 10
    getcwd := "/d"
    prestderr := ""
    poststderr := ""
    excText := "TRACE\n"
    exec := fun _ =>
      { writes := [(StreamId.stdout, "A"), (StreamId.stderr, "B"), (StreamId.stdout, "C")]
        rtnSet := none, outSet := none, setExit := false, outcome := Outcome.success } }

/-- A session state with an empty history object attached. -/
def sessSt : SessionState :=
  { shell := stEmpty, cache := [], hist := some ⟨none, none, []⟩
    pwd := some "/d", oldpwd := none, exitFlag := false, tick := 0 }

/-- A session state whose history carries leftover values in
`last_cmd_rtn` and `last_cmd_out`. -/
def sessStLeft : SessionState :=
  { shell := stEmpty, cache := [], hist := some ⟨some 3, some "OLD", []⟩
    pwd := some "/d", oldpwd := none, exitFlag := false, tick := 0 }

/-! Theorems. -/

/-- Processing a write sequence appends, to the shared buffer, every
payload in order, and to each real stream its own decorated payloads in
order; the decoration configuration is untouched. -/
theorem writeAll_spec (ws : List (StreamId × String)) (t : TeeModel) :
    (t.writeAll ws).mem = t.mem ++ strConcat (ws.map Prod.snd) ∧
    (t.writeAll ws).stdoutReal = t.stdoutReal ++ strConcat (ws.filterMap fun w =>
      match w.1 with
      | StreamId.stdout => some (decorateStd "" "" w.2)
      | StreamId.stderr => none) ∧
    (t.writeAll ws).stderrReal = t.stderrReal ++ strConcat (ws.filterMap fun w =>
      match w.1 with
      | StreamId.stdout => none
      | StreamId.stderr => some (decorateStd t.prestderr t.poststderr w.2)) ∧
    (t.writeAll ws).prestderr = t.prestderr ∧
    (t.writeAll ws).poststderr = t.poststderr := by
  induction ws generalizing t with
  | nil =>
    simp [TeeModel.writeAll, strConcat, String.append_empty]
  | cons w rest ih =>
    obtain ⟨id, s⟩ := w
    have e : t.writeAll (⟨id, s⟩ :: rest) = (t.write id s).writeAll rest := rfl
    obtain ⟨h1, h2, h3, h4, h5⟩ := ih (t.write id s)
    rw [e]
    cases id with
    | stdout =>
      refine ⟨?_, ?_, ?_, ?_, ?_⟩
      · rw [h1]; simp [TeeModel.write, strConcat, String.append_assoc]
      · rw [h2]; simp [TeeModel.write, strConcat, String.append_assoc]
      · rw [h3]; simp [TeeModel.write]
      · rw [h4]; rfl
      · rw [h5]; rfl
    | stderr =>
      refine ⟨?_, ?_, ?_, ?_, ?_⟩
      · rw [h1]; simp [TeeModel.write, strConcat, String.append_assoc]
      · rw [h2]; simp [TeeModel.write]
      · rw [h3]; simp [TeeModel.write, strConcat, String.append_assoc]
      · rw [h4]; rfl
      · rw [h5]; rfl

/-- C3: for every sequence of writes during one execution, each payload
written through the tee'd stdout or stderr adapter reaches the
corresponding real stream decorated with that stream's configured
decorations (empty ones for stdout) and reaches the shared in-memory
buffer undecorated, so `getvalue` is the concatenation of all payloads
in true chronological order across the two streams. -/
theorem c3_tee_duplicates_and_preserves_order
    (prestderr poststderr : String) (ws : List (StreamId × String)) :
    ((TeeModel.init prestderr poststderr).writeAll ws).getvalue =
      strConcat (ws.map Prod.snd) ∧
    ((TeeModel.init prestderr poststderr).writeAll ws).stdoutReal =
      strConcat (ws.filterMap fun w =>
        match w.1 with
        | StreamId.stdout => some (decorateStd "" "" w.2)
        | StreamId.stderr => none) ∧
    ((TeeModel.init prestderr poststderr).writeAll ws).stderrReal =
      strConcat (ws.filterMap fun w =>
        match w.1 with
        | StreamId.stdout => none
        | StreamId.stderr => some (decorateStd prestderr poststderr w.2)) := by
  obtain ⟨h1, h2, h3, h4, h5⟩ := writeAll_spec ws (TeeModel.init prestderr poststderr)
  refine ⟨?_, ?_, ?_⟩
  · rw [TeeModel.getvalue, h1]; simp [TeeModel.init, String.empty_append]
  · rw [h2]; simp [TeeModel.init, String.empty_append]
  · rw [h3]; simp [TeeModel.init, String.empty_append]

/-- C9: closing a tee restores `sys.stdout`/`sys.stderr` to exactly the
objects captured at open time (whatever output was captured in the
meantime), a second close changes nothing, and once closed, writes
through the restored `sys.stdout` no longer reach the in-memory capture
buffer. -/
theorem c9_close_restores_idempotent_bypasses
    (sys : SysStreams) (m realOut s : String) (a : Nat)
    (ha : sys.stdout = SysObj.orig a) :
    ((TeeSys.close { (TeeSys.open sys).1 with mem := m } (TeeSys.open sys).2).2 = sys) ∧
    (TeeSys.close
        (TeeSys.close { (TeeSys.open sys).1 with mem := m } (TeeSys.open sys).2).1
        (TeeSys.close { (TeeSys.open sys).1 with mem := m } (TeeSys.open sys).2).2 =
      TeeSys.close { (TeeSys.open sys).1 with mem := m } (TeeSys.open sys).2) ∧
    (((TeeSys.close { (TeeSys.open sys).1 with mem := m } (TeeSys.open sys).2).1.writeViaStdout
        (TeeSys.close { (TeeSys.open sys).1 with mem := m } (TeeSys.open sys).2).2
        realOut s).1.mem =
      (TeeSys.close { (TeeSys.open sys).1 with mem := m } (TeeSys.open sys).2).1.mem ∧
     ((TeeSys.close { (TeeSys.open sys).1 with mem := m } (TeeSys.open sys).2).1.writeViaStdout
        (TeeSys.close { (TeeSys.open sys).1 with mem := m } (TeeSys.open sys).2).2
        realOut s).2 = realOut ++ s) := by
  obtain ⟨so, se⟩ := sys
  simp only [SysStreams.stdout] at ha
  subst ha
  refine ⟨?_, ?_, ?_, ?_⟩ <;>
    simp [TeeSys.open, TeeSys.close, TeeStdSys.replaceStd, TeeSys.writeViaStdout]

/-- C9 witness: the theorem instantiated at a concrete stream pair. -/
theorem c9_witness :
    (SysStreams.mk (SysObj.orig 1) (SysObj.orig 2)).stdout = SysObj.orig 1 ∧
    ((TeeSys.close
        { (TeeSys.open ⟨SysObj.orig 1, SysObj.orig 2⟩).1 with mem := "AB" }
        (TeeSys.open ⟨SysObj.orig 1, SysObj.orig 2⟩).2).2 =
      ⟨SysObj.orig 1, SysObj.orig 2⟩) :=
  ⟨rfl, (c9_close_restores_idempotent_bypasses ⟨SysObj.orig 1, SysObj.orig 2⟩
    "AB" "out" "x" 1 rfl).1⟩

/-- When the cache is disabled or misses, `compile` runs the try/except
body. -/
theorem compile_eq_body (env : CompileEnv) (cache : List (String × Code))
    (st : ShellState) (src : String)
    (hmiss : env.should_use_cache = true →
      (code_cache_check cache (env.get_cache_filename (env.code_cache_name src))).1 = false) :
    compile env cache st src =
      compileBody env cache st src env.should_use_cache
        (env.get_cache_filename (env.code_cache_name src)) := by
  unfold compile
  cases hc : env.should_use_cache with
  | false => simp
  | true => simp [hmiss hc]

/-- C1: when the execer reports a syntax error, `compile` permanently
rejects the input exactly when the source is a single blank line or
ends with two consecutive newlines and is not inside an unterminated
string literal — clearing the buffer, surfacing the error and returning
`(src, None)`; otherwise it keeps the buffer, sets `need_more_lines`
and returns `(src, None)` silently. -/
theorem c1_syntax_error_branching (env : CompileEnv) (cache : List (String × Code))
    (st : ShellState) (src : String)
    (hsyn : env.execerCompile src = ExecerResult.syntaxError)
    (hmiss : env.should_use_cache = true →
      (code_cache_check cache (env.get_cache_filename (env.code_cache_name src))).1 = false) :
    (((src = "\n" || strEndsWith src "\n\n") &&
        !((env.check_for_partial_string src).1.isSome &&
          (env.check_for_partial_string src).2.isNone)) = true →
      (compile env cache st src).shell.buffer = [] ∧
      (compile env cache st src).shell.need_more_lines = false ∧
      (compile env cache st src).printedException = true ∧
      (compile env cache st src).src = src ∧
      (compile env cache st src).code = none) ∧
    (((src = "\n" || strEndsWith src "\n\n") &&
        !((env.check_for_partial_string src).1.isSome &&
          (env.check_for_partial_string src).2.isNone)) = false →
      (compile env cache st src).shell.buffer = st.buffer ∧
      (compile env cache st src).shell.need_more_lines = true ∧
      (compile env cache st src).printedException = false ∧
      (compile env cache st src).src = src ∧
      (compile env cache st src).code = none) := by
  rw [compile_eq_body env cache st src hmiss]
  unfold compileBody
  rw [hsyn]
  constructor <;> intro hcond <;> simp only [hcond] <;>
    simp [reset_buffer]

/-- C1 witness: the source `"a\n\n"` (blank-terminated, no partial
string literal) under an execer that reports a syntax error is
permanently rejected: buffer cleared, flag reset, error surfaced. -/
theorem c1_witness :
    envSyn.execerCompile "a\n\n" = ExecerResult.syntaxError ∧
    ((("a\n\n" = "\n" || strEndsWith "a\n\n" "\n\n") &&
        !((envSyn.check_for_partial_string "a\n\n").1.isSome &&
          (envSyn.check_for_partial_string "a\n\n").2.isNone)) = true) ∧
    ((compile envSyn [] stNeed "a\n\n").shell.buffer = [] ∧
      (compile envSyn [] stNeed "a\n\n").shell.need_more_lines = false ∧
      (compile envSyn [] stNeed "a\n\n").printedException = true ∧
      (compile envSyn [] stNeed "a\n\n").src = "a\n\n" ∧
      (compile envSyn [] stNeed "a\n\n").code = none) :=
  ⟨rfl, by decide,
    (c1_syntax_error_branching envSyn [] stNeed "a\n\n" rfl
      (fun h => by simp [envSyn] at h)).1 (by decide)⟩

/-- Every `compile` path either resets the buffer or — only on the
need-more-input path — keeps it with `need_more_lines` set, no unit and
no surfaced error. -/
theorem compile_shell_cases (env : CompileEnv) (cache : List (String × Code))
    (st : ShellState) (src : String) :
    (compile env cache st src).shell = reset_buffer st ∨
    ((compile env cache st src).shell = { st with need_more_lines := true } ∧
      (compile env cache st src).code = none ∧
      (compile env cache st src).printedException = false) := by
  simp only [compile, compileBody]
  repeat' split
  all_goals first
    | (left; rfl)
    | (right; exact ⟨rfl, rfl, rfl⟩)

/-- C5: whenever `compile` produces a unit (fresh compilation or cache
hit) or permanently rejects the input (surfacing an error), it clears
the buffer and resets `need_more_lines` (and the multiline prompt) in
the same step. -/
theorem c5_unit_or_rejection_clears_buffer (env : CompileEnv)
    (cache : List (String × Code)) (st : ShellState) (src : String)
    (h : (compile env cache st src).code.isSome = true ∨
      (compile env cache st src).printedException = true) :
    (compile env cache st src).shell.buffer = [] ∧
    (compile env cache st src).shell.need_more_lines = false ∧
    (compile env cache st src).shell.mlprompt = none := by
  rcases compile_shell_cases env cache st src with hs | ⟨hs, hc, hp⟩
  · rw [hs]; exact ⟨rfl, rfl, rfl⟩
  · rcases h with h | h
    · rw [hc] at h; simp at h
    · rw [hp] at h; simp at h

/-- C5 witness: a successful compilation from a mid-block state clears
the buffer and both flags. -/
theorem c5_witness :
    ((compile envOk [] stNeed "x\n").code.isSome = true ∨
      (compile envOk [] stNeed "x\n").printedException = true) ∧
    ((compile envOk [] stNeed "x\n").shell.buffer = [] ∧
      (compile envOk [] stNeed "x\n").shell.need_more_lines = false ∧
      (compile envOk [] stNeed "x\n").shell.mlprompt = none) :=
  ⟨Or.inl (by decide),
    c5_unit_or_rejection_clears_buffer envOk [] stNeed "x\n" (Or.inl (by decide))⟩

/-- If the execer does not succeed on a source, `compile` leaves the
cache store untouched. -/
theorem compile_cache_unchanged (env : CompileEnv) (cache : List (String × Code))
    (st : ShellState) (src : String)
    (h : ∀ c : Code, env.execerCompile src ≠ ExecerResult.ok c) :
    (compile env cache st src).cache = cache := by
  cases he : env.execerCompile src with
  | ok c2 => exact absurd he (h c2)
  | syntaxError =>
    simp only [compile, compileBody, he]
    repeat' split
    all_goals rfl
  | otherError =>
    simp only [compile, compileBody, he]
    repeat' split
    all_goals rfl

/-- C6: with caching enabled, a successful compilation stores the unit
in the cache; recompiling the same source then hits the cache, clears
the buffer and returns the stored unit without invoking the execer;
and a source the execer rejects (in any way) is never stored. -/
theorem c6_cache_only_success_and_hit_bypasses (env : CompileEnv)
    (cache : List (String × Code)) (st st2 : ShellState) (src : String) (c : Code)
    (hc : env.should_use_cache = true)
    (hok : env.execerCompile src = ExecerResult.ok c)
    (hmiss : (code_cache_check cache
      (env.get_cache_filename (env.code_cache_name src))).1 = false) :
    (compile env cache st src).cache =
      (env.get_cache_filename (env.code_cache_name src), c) :: cache ∧
    (compile env cache st src).code = some c ∧
    ((compile env ((compile env cache st src).cache) st2 src).compilerInvoked = false ∧
      (compile env ((compile env cache st src).cache) st2 src).code = some c ∧
      (compile env ((compile env cache st src).cache) st2 src).shell.buffer = [] ∧
      (compile env ((compile env cache st src).cache) st2 src).shell.need_more_lines = false) ∧
    (∀ (st3 : ShellState) (src2 : String),
      (∀ c2 : Code, env.execerCompile src2 ≠ ExecerResult.ok c2) →
      (compile env cache st3 src2).cache = cache) := by
  have hcache : (compile env cache st src).cache =
      (env.get_cache_filename (env.code_cache_name src), c) :: cache := by
    rw [compile_eq_body env cache st src (fun _ => hmiss)]
    unfold compileBody
    rw [hok]
    simp [hc, update_cache]
  have hhit : code_cache_check
      ((env.get_cache_filename (env.code_cache_name src), c) :: cache)
      (env.get_cache_filename (env.code_cache_name src)) = (true, some c) := by
    simp [code_cache_check, List.lookup]
  refine ⟨hcache, ?_, ?_, ?_⟩
  · rw [compile_eq_body env cache st src (fun _ => hmiss)]
    unfold compileBody
    rw [hok]
  · rw [hcache]
    refine ⟨?_, ?_, ?_, ?_⟩ <;> simp [compile, hc, hhit, reset_buffer]
  · intro st3 src2 hne
    exact compile_cache_unchanged env cache st3 src2 hne

/-- C6 witness: with caching enabled and an execer returning unit `7`,
compiling `"y\n"` stores it and a second compile of the same text hits
the cache without invoking the execer. -/
theorem c6_witness :
    envOkCache.should_use_cache = true ∧
    envOkCache.execerCompile "y\n" = ExecerResult.ok 7 ∧
    (code_cache_check []
      (envOkCache.get_cache_filename (envOkCache.code_cache_name "y\n"))).1 = false ∧
    (compile envOkCache ((compile envOkCache [] stEmpty "y\n").cache) stEmpty "y\n").compilerInvoked
      = false :=
  ⟨rfl, rfl, by decide,
    (c6_cache_only_success_and_hit_bypasses envOkCache [] stEmpty stEmpty "y\n" 7
      rfl rfl (by decide)).2.2.1.1⟩

/-- Lemma: `compile` always returns the source it was given as the first
component of its result pair. -/
theorem compile_src (env : CompileEnv) (cache : List (String × Code))
    (st : ShellState) (src : String) : (compile env cache st src).src = src := by
  simp only [compile, compileBody]
  repeat' split
  all_goals rfl

/-- C4 counterexample: on a push made while `need_more_lines` is
already set, `push` returns `(None, None)`; the first component is not
the accumulated source text. -/
theorem c4_counterexample :
    stNeed.need_more_lines = true ∧
    (push envSyn [] stNeed "x\n").src = none ∧
    (push envSyn [] stNeed "x\n").src ≠
      some (envSyn.transform_command (String.join (stNeed.buffer ++ ["x\n"]))) :=
  ⟨rfl, rfl, by decide⟩

/-- C4 amended: `push` appends the line to the buffer; when the
need-more-lines flag is already set it returns `(None, None)` without
compiling; otherwise its first component is the accumulated (and
transformed) source text — `(src, None)` while awaiting more input and
`(src, unit)` on the call that completes a unit. -/
theorem c4_push_source_component (env : CompileEnv) (cache : List (String × Code))
    (st : ShellState) (line : String) :
    (st.need_more_lines = true →
      (push env cache st line).src = none ∧
      (push env cache st line).code = none) ∧
    (st.need_more_lines = false →
      (push env cache st line).src =
        some (env.transform_command (String.join (st.buffer ++ [line]))) ∧
      (push env cache st line).code =
        (compile env cache { st with buffer := st.buffer ++ [line] }
          (env.transform_command (String.join (st.buffer ++ [line])))).code) := by
  constructor <;> intro h <;> simp [push, h, compile_src]

/-- C4 witness: from an idle state the first component of `push` is the
accumulated source text. -/
theorem c4_push_source_component_witness :
    stEmpty.need_more_lines = false ∧
    (push envOk [] stEmpty "x\n").src =
      some (envOk.transform_command (String.join (stEmpty.buffer ++ ["x\n"]))) :=
  ⟨rfl, ((c4_push_source_component envOk [] stEmpty "x\n").2 rfl).1⟩

/-- The cwd-drift check leaves the tracked `PWD` equal to the actual
working directory. -/
theorem fix_cwd_pwd (env : SessionEnv) (st : SessionState) :
    (fix_cwd env st).1.pwd = some env.getcwd := by
  unfold fix_cwd
  dsimp only
  split
  · rcases hp : st.pwd with _ | o <;> simp
  · next hne =>
    have heq : st.pwd = some env.getcwd := not_not.mp hne
    simp [heq]

/-- The cwd-drift check does not touch the history object. -/
theorem fix_cwd_hist (env : SessionEnv) (st : SessionState) :
    (fix_cwd env st).1.hist = st.hist := by
  unfold fix_cwd
  dsimp only
  split
  · rcases hp : st.pwd with _ | o <;> simp
  · rfl

/-- C2: when the executed unit raises an unrecognized fault and did not
itself set a return code, `default` still appends a history record
whose end timestamp exists and is at least the start timestamp, with
the failure return code `1`; the tee is closed exactly once and the
cwd-drift check still runs (leaving the tracked `PWD` equal to the
actual working directory). -/
theorem c2_fault_finalizes_history (env : SessionEnv) (st : SessionState)
    (line : String) (c : Code) (h : History)
    (hmono : ∀ i j : Nat, i ≤ j → env.times i ≤ env.times j)
    (hline : strEndsWith line "\n" = true)
    (hp : (push env.cenv st.cache st.shell line).code = some c)
    (hout : (env.exec c).outcome = Outcome.fault)
    (hrtn : (env.exec c).rtnSet = none)
    (hh : st.hist = some h)
    (hlast : h.last_cmd_rtn = none) :
    ∃ (h2 : History) (rec : HistRecord),
      (default env st line).state.hist = some h2 ∧
      h2.records = h.records ++ [rec] ∧
      rec.rtn = some 1 ∧
      rec.ts0 ≤ rec.ts1 ∧
      (default env st line).teeCloses = 1 ∧
      (default env st line).state.pwd = some env.getcwd := by
  simp only [default, hline, if_true, hp, hh, applyExecSets, hrtn, hout, setRtnIfNone,
    Option.map_some', append_history, hlast, fix_cwd_hist, fix_cwd_pwd]
  exact ⟨_, _, rfl, rfl, rfl, hmono _ _ (Nat.le_succ _), trivial, trivial⟩

/-- C2 witness: a concrete faulting execution still yields a history
record with failure return code and ordered timestamps. -/
theorem c2_witness :
    (push sessFault.cenv sessSt.cache sessSt.shell "x\n").code = some 5 ∧
    (sessFault.exec 5).outcome = Outcome.fault ∧
    ∃ (h2 : History) (rec : HistRecord),
      (default sessFault sessSt "x\n").state.hist = some h2 ∧
      h2.records = [] ++ [rec] ∧
      rec.rtn = some 1 ∧
      rec.ts0 ≤ rec.ts1 ∧
      (default sessFault sessSt "x\n").teeCloses = 1 ∧
      (default sessFault sessSt "x\n").state.pwd = some sessFault.getcwd :=
  ⟨by decide, rfl,
    c2_fault_finalizes_history sessFault sessSt "x\n" 5 ⟨none, none, []⟩
      (fun i j hij => Nat.add_le_add_right hij 10) (by decide) (by decide)
      rfl rfl rfl rfl⟩

/-- C7: after one execution (entered with no leftover return code), the
recorded return code is the one the executed unit itself set when it
set one — never overwritten — and otherwise defaults to `0` on success
and to `1` on a recognized shell-level error (whose message is printed
to the tee'd error stream) or on any other fault. -/
theorem c7_return_code_semantics (env : SessionEnv) (st : SessionState)
    (line : String) (c : Code) (h : History)
    (hline : strEndsWith line "\n" = true)
    (hp : (push env.cenv st.cache st.shell line).code = some c)
    (hh : st.hist = some h)
    (hlast : h.last_cmd_rtn = none) :
    ∃ rec : HistRecord,
      (default env st line).state.hist =
        some ⟨none, none, h.records ++ [rec]⟩ ∧
      rec.rtn = (match (env.exec c).rtnSet, (env.exec c).outcome with
        | some v, _ => some v
        | none, Outcome.success => some 0
        | none, _ => some 1) ∧
      (∀ msg, (env.exec c).outcome = Outcome.xonshError msg →
        (default env st line).tee = some
          (((TeeModel.init env.prestderr env.poststderr).writeAll
              (env.exec c).writes).write StreamId.stderr (msg ++ "\n"))) := by
  cases ho : (env.exec c).outcome with
  | success =>
    cases hr : (env.exec c).rtnSet with
    | none =>
      by_cases hz : env.times (st.tick + 1) = 0 <;>
        simp only [default, hline, if_true, hp, hh, applyExecSets, setRtnIfNone, ho, hr,
          hlast, Option.map_some', append_history, fix_cwd_hist, hz, if_false] <;>
        exact ⟨_, rfl, rfl, by simp [ho]⟩
    | some v =>
      by_cases hz : env.times (st.tick + 1) = 0 <;>
        simp only [default, hline, if_true, hp, hh, applyExecSets, setRtnIfNone, ho, hr,
          hlast, Option.map_some', append_history, fix_cwd_hist, hz, if_false] <;>
        exact ⟨_, rfl, rfl, by simp [ho]⟩
  | xonshError m =>
    cases hr : (env.exec c).rtnSet with
    | none =>
      simp only [default, hline, if_true, hp, hh, applyExecSets, setRtnIfNone, ho, hr,
        hlast, Option.map_some', append_history, fix_cwd_hist]
      refine ⟨_, rfl, rfl, ?_⟩
      intro msg hmsg
      simp only [ho, Outcome.xonshError.injEq] at hmsg
      subst hmsg
      rfl
    | some v =>
      simp only [default, hline, if_true, hp, hh, applyExecSets, setRtnIfNone, ho, hr,
        hlast, Option.map_some', append_history, fix_cwd_hist]
      refine ⟨_, rfl, rfl, ?_⟩
      intro msg hmsg
      simp only [ho, Outcome.xonshError.injEq] at hmsg
      subst hmsg
      rfl
  | fault =>
    cases hr : (env.exec c).rtnSet with
    | none =>
      simp only [default, hline, if_true, hp, hh, applyExecSets, setRtnIfNone, ho, hr,
        hlast, Option.map_some', append_history, fix_cwd_hist]
      exact ⟨_, rfl, rfl, by simp [ho]⟩
    | some v =>
      simp only [default, hline, if_true, hp, hh, applyExecSets, setRtnIfNone, ho, hr,
        hlast, Option.map_some', append_history, fix_cwd_hist]
      exact ⟨_, rfl, rfl, by simp [ho]⟩

/-- C7 witness: a concrete successful execution that set no return code
is recorded with the success return code `0`. -/
theorem c7_witness :
    (push sessOk.cenv sessSt.cache sessSt.shell "x\n").code = some 5 ∧
    ∃ rec : HistRecord,
      (default sessOk sessSt "x\n").state.hist =
        some ⟨none, none, [] ++ [rec]⟩ ∧
      rec.rtn = (match (sessOk.exec 5).rtnSet, (sessOk.exec 5).outcome with
        | some v, _ => some v
        | none, Outcome.success => some 0
        | none, _ => some 1) ∧
      (∀ msg, (sessOk.exec 5).outcome = Outcome.xonshError msg →
        (default sessOk sessSt "x\n").tee = some
          (((TeeModel.init sessOk.prestderr sessOk.poststderr).writeAll
              (sessOk.exec 5).writes).write StreamId.stderr (msg ++ "\n"))) :=
  ⟨by decide,
    c7_return_code_semantics sessOk sessSt "x\n" 5 ⟨none, none, []⟩
      (by decide) (by decide) rfl rfl⟩

/-- C8: history finalization merges the externally populated
last-command output and this cycle's tee capture: with both present
they are concatenated with exactly one separating newline, with exactly
one present that one is used, and with neither present (the capture
being empty counts as absent) the output field is omitted from the
record. -/
theorem c8_output_merge (st : SessionState) (inp : String) (ts0 ts1 : Nat)
    (teeOut : String) (h : History) (hh : st.hist = some h) :
    ∃ rec : HistRecord,
      (append_history st inp ts0 ts1 (some teeOut)).1.hist =
        some ⟨none, none, h.records ++ [rec]⟩ ∧
      (∀ l, h.last_cmd_out = some l → teeOut ≠ "" →
        rec.out = some (teeOut ++ "\n" ++ l)) ∧
      (h.last_cmd_out = none → teeOut ≠ "" → rec.out = some teeOut) ∧
      (∀ l, h.last_cmd_out = some l → teeOut = "" → rec.out = some l) ∧
      (h.last_cmd_out = none → teeOut = "" → rec.out = none) := by
  by_cases ht : teeOut = ""
  · cases ho : h.last_cmd_out with
    | none =>
      exact ⟨⟨inp, ts0, ts1, h.last_cmd_rtn, none⟩,
        by simp [append_history, hh, ho, ht], by simp [ho, ht]⟩
    | some l =>
      exact ⟨⟨inp, ts0, ts1, h.last_cmd_rtn, some l⟩,
        by simp [append_history, hh, ho, ht], by simp [ho, ht]⟩
  · cases ho : h.last_cmd_out with
    | none =>
      exact ⟨⟨inp, ts0, ts1, h.last_cmd_rtn, some teeOut⟩,
        by simp [append_history, hh, ho, ht], by simp [ho, ht]⟩
    | some l =>
      exact ⟨⟨inp, ts0, ts1, h.last_cmd_rtn, some (teeOut ++ "\n" ++ l)⟩,
        by simp [append_history, hh, ho, ht], by simp [ho, ht]⟩

/-- C8 witness: with a leftover last-command output `"OLD"` and a
non-empty capture `"TEE"`, the record's output is their concatenation
with one separating newline. -/
theorem c8_witness :
    sessStLeft.hist = some ⟨some 3, some "OLD", []⟩ ∧
    ∃ rec : HistRecord,
      (append_history sessStLeft "x\n" 1 2 (some "TEE")).1.hist =
        some ⟨none, none, [] ++ [rec]⟩ ∧
      (∀ l, (History.mk (some 3) (some "OLD") []).last_cmd_out = some l → "TEE" ≠ "" →
        rec.out = some ("TEE" ++ "\n" ++ l)) ∧
      ((History.mk (some 3) (some "OLD") []).last_cmd_out = none → "TEE" ≠ "" →
        rec.out = some "TEE") ∧
      (∀ l, (History.mk (some 3) (some "OLD") []).last_cmd_out = some l → "TEE" = "" →
        rec.out = some l) ∧
      ((History.mk (some 3) (some "OLD") []).last_cmd_out = none → "TEE" = "" →
        rec.out = none) :=
  ⟨rfl, c8_output_merge sessStLeft "x\n" 1 2 "TEE" ⟨some 3, some "OLD", []⟩ rfl⟩

/-- C10: after every history append, `last_cmd_rtn` and `last_cmd_out`
are both reset to `None`, so a following execution's "if unset"
return-code defaulting and output merge cannot observe leftovers. -/
theorem c10_append_resets_last_cmd (st : SessionState) (inp : String)
    (ts0 ts1 : Nat) (tee_out : Option String) (h : History)
    (hh : st.hist = some h) :
    ∃ h2 : History,
      (append_history st inp ts0 ts1 tee_out).1.hist = some h2 ∧
      h2.last_cmd_rtn = none ∧ h2.last_cmd_out = none := by
  simp only [append_history, hh]
  exact ⟨_, rfl, rfl, rfl⟩

/-- C10 witness: leftover values `some 3` / `some "OLD"` are cleared by
the append. -/
theorem c10_witness :
    sessStLeft.hist = some ⟨some 3, some "OLD", []⟩ ∧
    ∃ h2 : History,
      (append_history sessStLeft "x\n" 1 2 (some "TEE")).1.hist = some h2 ∧
      h2.last_cmd_rtn = none ∧ h2.last_cmd_out = none :=
  ⟨rfl, c10_append_resets_last_cmd sessStLeft "x\n" 1 2 (some "TEE")
    ⟨some 3, some "OLD", []⟩ rfl⟩

end XonshBase
